import Mathlib

/-!
Shallow embedding of the CardSight demo Discord bot's
interaction-handling and result-rendering pipeline:

* `src/utils/cardsight.ts` — the identification client adapter
  (`identifyCard`, `formatCardDisplay`);
* `src/utils/embedBuilder.ts` — the response formatter
  (`createIdentificationEmbed` and friends);
* `src/commands/identify.ts` — the `/identify` command handler
  (`identifyCommand.execute`), modelled as a trace of observable actions;
* `src/events/interactionCreate.ts` — the interaction dispatcher
  (`handleInteractionCreate`), likewise as a trace.

JavaScript runtime conventions used throughout: a machine integer is a
`Nat`; an optional / possibly-`undefined` value is an `Option`; the JS
truthiness of a string is "not empty", of a number "not zero", of an
object "present".  A remote call that can throw is modelled by passing
the call's outcome (a tagged union over the thrown error's runtime
class) as an explicit argument.
-/

namespace CardSightDemo

/-- JS truthiness of a string: `""` is falsy. -/
def strTruthy (s : String) : Bool := !s.isEmpty

/-- JS truthiness of a number: `0` is falsy. -/
def natTruthy (n : Nat) : Bool := n != 0

/-- JS truthiness of a possibly-undefined string. -/
def optStrTruthy : Option String → Bool
  | none => false
  | some s => !s.isEmpty

/-- JS truthiness of a possibly-undefined number. -/
def optNatTruthy : Option Nat → Bool
  | none => false
  | some n => n != 0

/-- JS truthiness of a possibly-undefined boolean. -/
def optBoolTruthy : Option Bool → Bool
  | none => false
  | some b => b

/-- `ConfidenceLevel` from `src/types/index.ts`: `'High' | 'Medium' | 'Low'`. -/
inductive ConfidenceLevel where
  | High
  | Medium
  | Low
deriving DecidableEq, Repr

/-- The literal string value of a `ConfidenceLevel` (template interpolation
`${confidence}` in the source prints one of these). -/
def confidenceLabel : ConfidenceLevel → String
  | .High => "High"
  | .Medium => "Medium"
  | .Low => "Low"

/-- `ConfidenceColors` (confidence part) from `src/types/index.ts`. -/
def ConfidenceColors : ConfidenceLevel → Nat
  | .High => 0x00ff00
  | .Medium => 0xffff00
  | .Low => 0xff0000

/-- `ConfidenceColors.Error` from `src/types/index.ts`. -/
def ConfidenceColorsError : Nat := 0x8b0000

/-- `ConfidenceColors.Info` from `src/types/index.ts`. -/
def ConfidenceColorsInfo : Nat := 0x0099ff

/-- `ConfidenceEmojis` from `src/types/index.ts`. -/
def ConfidenceEmojis : ConfidenceLevel → String
  | .High => "🟢"
  | .Medium => "🟡"
  | .Low => "🔴"

/-- The runtime shape the embed builder probes with `card.parallel?.name`
and `card.parallel?.numberedTo` (`src/utils/embedBuilder.ts`). -/
structure ParallelShape where
  name : Option String
  numberedTo : Option Nat
deriving DecidableEq, Repr

/-- `CardDetection['card']` from `src/utils/cardsight.ts`: the interface
declares `id, name, year, manufacturer, releaseName, setName, number` and
the optional flat fields `isParallel?, parallelName?, numberedTo?`.
The extra `parallel` field models the JS open-record runtime: the embed
builder reads the property `card.parallel`, which the interface does not
declare and which `identifyCard` never assigns, so on every card flowing
through the pipeline it is `none` (JS `undefined`). -/
structure Card where
  id : String
  name : String
  year : Nat
  manufacturer : String
  releaseName : String
  setName : String
  number : String
  isParallel : Option Bool
  parallelName : Option String
  numberedTo : Option Nat
  parallel : Option ParallelShape
deriving DecidableEq, Repr

/-- `CardDetection` from `src/utils/cardsight.ts`. -/
structure CardDetection where
  confidence : ConfidenceLevel
  card : Card
deriving DecidableEq, Repr

/-- `CardIdentificationResult` from `src/utils/cardsight.ts`.
`processingTime` is milliseconds (`Date.now()` difference). -/
structure CardIdentificationResult where
  success : Bool
  detections : List CardDetection
  processingTime : Nat
  requestId : Option String
  error : Option String
deriving DecidableEq, Repr

/-- The raw card object of one detection in the remote API's response body;
`identifyCard` reads exactly these properties off `detection.card`. -/
structure RawCard where
  id : String
  name : String
  year : Nat
  manufacturer : String
  releaseName : String
  setName : String
  number : String
  isParallel : Option Bool
  parallelName : Option String
  numberedTo : Option Nat
deriving DecidableEq, Repr

/-- One raw detection in the remote API's response body. -/
structure RawDetection where
  confidence : ConfidenceLevel
  card : RawCard
deriving DecidableEq, Repr

/-- The `result.data` body of an OK remote response.  `success : Bool`
models the truthiness of `result.data.success`; a body that lacks the
flag reads as `false`, exactly as `!result.data.success` does in JS. -/
structure ApiData where
  success : Bool
  detections : List RawDetection
  requestId : Option String
deriving DecidableEq, Repr

/-- Outcome of `await cardsightClient.identify.card(blob)`, tagged by the
runtime class of the thrown error, mirroring the `instanceof` chain of
the source's catch block (checked in that order: `AuthenticationError`
first, then `CardSightAIError`, then everything else).
For `apiError`, `status` is the error's optional numeric HTTP status and
`requestId` is the collapsed value of
`error.requestId || error.request?.id`. -/
inductive ApiOutcome where
  | ok (data : Option ApiData)
  | authError
  | apiError (status : Option Nat) (requestId : Option String)
  | unexpected
deriving DecidableEq, Repr

/-- The per-detection mapping inside `identifyCard`
(`result.data.detections.map(...)`): copies the interface's ten card
properties; the undeclared `parallel` property is never assigned, hence
`none`. -/
def mapDetection (d : RawDetection) : CardDetection :=
  { confidence := d.confidence
    card :=
      { id := d.card.id
        name := d.card.name
        year := d.card.year
        manufacturer := d.card.manufacturer
        releaseName := d.card.releaseName
        setName := d.card.setName
        number := d.card.number
        isParallel := d.card.isParallel
        parallelName := d.card.parallelName
        numberedTo := d.card.numberedTo
        parallel := none } }

/-- `identifyCard` from `src/utils/cardsight.ts`.  The image buffer,
filename and MIME type are carried to mirror the signature (they feed the
outbound blob and debug logs, not the result); `elapsed` is the measured
`Date.now() - startTime`, identical in every branch because both the try
and the catch paths compute it the same way; `outcome` is what the remote
call did.  Every source path ends in a `return`, so the embedding is a
total function into `CardIdentificationResult`. -/
def identifyCard (imageBuffer : List Nat) (filename : String)
    (mimeType : Option String) (elapsed : Nat) (outcome : ApiOutcome) :
    CardIdentificationResult :=
  match outcome with
  | .ok data =>
    -- `if (!result.data || !result.data.success)`
    match data with
    | none =>
      { success := false, detections := [], processingTime := elapsed
        requestId := none, error := some "Card identification failed" }
    | some d =>
      if !d.success then
        { success := false, detections := [], processingTime := elapsed
          requestId := none, error := some "Card identification failed" }
      else
        { success := true, detections := d.detections.map mapDetection
          processingTime := elapsed, requestId := d.requestId, error := none }
  | .authError =>
    { success := false, detections := [], processingTime := elapsed
      requestId := none
      error := some "Authentication failed. Please check your API key." }
  | .apiError status reqId =>
    let errorMessage :=
      match status with
      | some s =>
        if s = 429 then "Rate limit exceeded. Please try again later."
        else if s = 413 then "Image is too large. Please use a smaller image."
        -- source: `error.status && error.status >= 500`
        else if s ≠ 0 ∧ 500 ≤ s then "CardSight service is temporarily unavailable."
        else "Failed to identify card"
      | none => "Failed to identify card"
    { success := false, detections := [], processingTime := elapsed
      requestId := reqId, error := some errorMessage }
  | .unexpected =>
    { success := false, detections := [], processingTime := elapsed
      requestId := none, error := some "An unexpected error occurred" }

/-- Spec-side error classification, written from the words of the claim:
authentication failure, then status 429, 413, any status ≥ 500, any other
typed remote-API error, any unrecognized exception, and the OK-response
without a success flag; `none` on a genuinely successful response. -/
def claimedErrorMessage : ApiOutcome → Option String
  | .authError => some "Authentication failed. Please check your API key."
  | .apiError status _ =>
    some (match status with
      | some s =>
        if s = 429 then "Rate limit exceeded. Please try again later."
        else if s = 413 then "Image is too large. Please use a smaller image."
        else if 500 ≤ s then "CardSight service is temporarily unavailable."
        else "Failed to identify card"
      | none => "Failed to identify card")
  | .unexpected => some "An unexpected error occurred"
  | .ok none => some "Card identification failed"
  | .ok (some d) =>
    if d.success then none else some "Card identification failed"

/-- C1: for every failing call, the error message of `identifyCard` is
exactly the one the claim's classification assigns to the failure cause
(auth, 429, 413, ≥ 500, other typed API error, unrecognized exception,
or OK response lacking a success flag). -/
theorem identify_error_message_classification
    (imageBuffer : List Nat) (filename : String) (mimeType : Option String)
    (elapsed : Nat) (outcome : ApiOutcome) :
    (identifyCard imageBuffer filename mimeType elapsed outcome).error =
      claimedErrorMessage outcome := by
  match outcome with
  | .ok none => rfl
  | .ok (some d) =>
    cases h : d.success <;> simp [identifyCard, claimedErrorMessage, h]
  | .authError => rfl
  | .unexpected => rfl
  | .apiError status reqId =>
    match status with
    | none => rfl
    | some s =>
      by_cases h1 : s = 429
      · simp [identifyCard, claimedErrorMessage, h1]
      · by_cases h2 : s = 413
        · simp [identifyCard, claimedErrorMessage, h1, h2]
        · by_cases h3 : 500 ≤ s
          · have hs : s ≠ 0 := by omega
            simp [identifyCard, claimedErrorMessage, h1, h2, h3, hs]
          · simp [identifyCard, claimedErrorMessage, h1, h2, h3]

/-- C2: `identifyCard` never raises — on every input and every outcome of
the remote call it returns a `CardIdentificationResult`, records the
elapsed time in `processingTime` regardless of outcome, and expresses
every failure through the `error` field. -/
theorem identify_total_and_records_time
    (imageBuffer : List Nat) (filename : String) (mimeType : Option String)
    (elapsed : Nat) (outcome : ApiOutcome) :
    (identifyCard imageBuffer filename mimeType elapsed outcome).processingTime
        = elapsed ∧
      ((identifyCard imageBuffer filename mimeType elapsed outcome).success = false →
        ∃ msg, (identifyCard imageBuffer filename mimeType elapsed outcome).error
          = some msg) := by
  match outcome with
  | .ok none => exact ⟨rfl, fun _ => ⟨_, rfl⟩⟩
  | .ok (some d) =>
    cases h : d.success <;>
      simp [identifyCard, h]
  | .authError => exact ⟨rfl, fun _ => ⟨_, rfl⟩⟩
  | .unexpected => exact ⟨rfl, fun _ => ⟨_, rfl⟩⟩
  | .apiError status reqId => exact ⟨rfl, fun _ => ⟨_, rfl⟩⟩

/-- Witness for C2 at a concrete input: a typed API error with status 429. -/
theorem identify_total_and_records_time_witness :
    (identifyCard [1, 2] "card.jpg" (some "image/png") 42
        (.apiError (some 429) none)).processingTime = 42 ∧
      ∃ msg, (identifyCard [1, 2] "card.jpg" (some "image/png") 42
        (.apiError (some 429) none)).error = some msg :=
  ⟨(identify_total_and_records_time [1, 2] "card.jpg" (some "image/png") 42
      (.apiError (some 429) none)).1,
   (identify_total_and_records_time [1, 2] "card.jpg" (some "image/png") 42
      (.apiError (some 429) none)).2 (by decide)⟩

/-- C3: every result of `identifyCard` satisfies the data-model invariant:
success implies no error field, failure implies no detections. -/
theorem identify_result_invariant
    (imageBuffer : List Nat) (filename : String) (mimeType : Option String)
    (elapsed : Nat) (outcome : ApiOutcome) :
    ((identifyCard imageBuffer filename mimeType elapsed outcome).success = true →
        (identifyCard imageBuffer filename mimeType elapsed outcome).error = none) ∧
      ((identifyCard imageBuffer filename mimeType elapsed outcome).success = false →
        (identifyCard imageBuffer filename mimeType elapsed outcome).detections
          = []) := by
  match outcome with
  | .ok none => exact ⟨fun h => by simp [identifyCard] at h, fun _ => rfl⟩
  | .ok (some d) =>
    cases h : d.success <;> simp [identifyCard, h]
  | .authError => exact ⟨fun h => by simp [identifyCard] at h, fun _ => rfl⟩
  | .unexpected => exact ⟨fun h => by simp [identifyCard] at h, fun _ => rfl⟩
  | .apiError status reqId =>
    exact ⟨fun h => by simp [identifyCard] at h, fun _ => rfl⟩

/-- Witness for C3 at concrete inputs: a successful response with one
detection has no error field, and an authentication failure has an empty
detection list. -/
theorem identify_result_invariant_witness :
    (identifyCard [] "a.jpg" none 7
        (.ok (some { success := true, detections := [], requestId := some "r" }))).error
        = none ∧
      (identifyCard [] "a.jpg" none 7 .authError).detections = [] :=
  ⟨(identify_result_invariant [] "a.jpg" none 7
      (.ok (some { success := true, detections := [], requestId := some "r" }))).1
      (by decide),
   (identify_result_invariant [] "a.jpg" none 7 .authError).2 (by decide)⟩

/-- `formatCardDisplay` from `src/utils/cardsight.ts`: the summary display
string, with the parallel suffix when `card.isParallel && card.parallelName`
is truthy and the `/N` part when `card.numberedTo` is truthy. -/
def formatCardDisplay (card : Card) : String :=
  let display := toString card.year ++ " " ++ card.setName ++ " - " ++
    card.name ++ " #" ++ card.number
  if optBoolTruthy card.isParallel && optStrTruthy card.parallelName then
    display ++ " (" ++ card.parallelName.getD "" ++
      (if optNatTruthy card.numberedTo then
        " /" ++ toString (card.numberedTo.getD 0)
      else "") ++ ")"
  else display

/-- One field of a Discord embed (`addFields` argument shape). -/
structure EmbedField where
  name : String
  value : String
  inline : Bool
deriving DecidableEq, Repr

/-- A finished `EmbedBuilder` before serialization: title, color,
description, the ordered field list, footer text, thumbnail URL, and
whether `setTimestamp()` was called.  `setTimestamp()` with no argument
stamps the wall-clock instant of the call into the serialized payload;
that instant is supplied at serialization time by `embedPayloadAt`, which
turns an `Embed` into the time-carrying `EmbedPayload`. -/
structure Embed where
  title : Option String
  color : Option Nat
  description : Option String
  fields : List EmbedField
  footerText : Option String
  thumbnail : Option String
  hasTimestamp : Bool
deriving DecidableEq, Repr

/-- Two-digit zero padding for the fractional part of `toFixed(2)`. -/
def pad2 (n : Nat) : String :=
  if n < 10 then "0" ++ toString n else toString n

/-- `(processingTime / 1000).toFixed(2)`: milliseconds rendered as seconds
with two decimals.  Idealized as exact decimal rounding (half away from
zero); JS `toFixed` agrees except at ties perturbed by binary
representation noise, which no statement below exercises. -/
def toFixed2secs (ms : Nat) : String :=
  let cs := (ms + 5) / 10
  toString (cs / 100) ++ "." ++ pad2 (cs % 100)

/-- `formatCardDetails` from `src/utils/embedBuilder.ts` (JS truthiness on
each field; `year` is a number so `0` is skipped). -/
def formatCardDetails (card : Card) : String :=
  let lines :=
    (if strTruthy card.name then ["**Name:** " ++ card.name] else []) ++
    (if strTruthy card.number then ["**Card Number:** " ++ card.number] else []) ++
    (if natTruthy card.year then ["**Year:** " ++ toString card.year] else [])
  if lines.length > 0 then String.intercalate "\n" lines
  else "No card details available"

/-- `formatSetInfo` from `src/utils/embedBuilder.ts`. -/
def formatSetInfo (card : Card) : String :=
  let lines :=
    (if strTruthy card.setName then ["**Set:** " ++ card.setName] else []) ++
    (if strTruthy card.releaseName then ["**Release:** " ++ card.releaseName] else []) ++
    (if strTruthy card.manufacturer then
      ["**Manufacturer:** " ++ card.manufacturer] else [])
  if lines.length > 0 then String.intercalate "\n" lines
  else "No set information available"

/-- `formatParallelInfo` from `src/utils/embedBuilder.ts`: reads
`card.parallel?.name` and `card.parallel?.numberedTo` — the undeclared
`parallel` property, not the interface's flat fields. -/
def formatParallelInfo (card : Card) : String :=
  let nm := card.parallel.bind (fun p => p.name)
  let nt := card.parallel.bind (fun p => p.numberedTo)
  let lines :=
    (if optStrTruthy nm then ["**Parallel:** " ++ nm.getD ""] else []) ++
    (if optNatTruthy nt then ["**Numbered:** /" ++ toString (nt.getD 0)] else [])
  String.intercalate "\n" lines

/-- `createNoDetectionEmbed` from `src/utils/embedBuilder.ts`. -/
def createNoDetectionEmbed : Embed :=
  { title := some "❌ No Cards Detected"
    color := some ConfidenceColorsError
    description := some ("No trading cards were detected in the image.\n\n" ++
      "**Tips for better results:**\n" ++
      "• Ensure the card is clearly visible\n" ++
      "• Use good lighting\n" ++
      "• Avoid blurry or angled photos\n" ++
      "• Try to capture the entire card")
    fields := []
    footerText := some "Powered by CardSight AI"
    thumbnail := none
    hasTimestamp := true }

/-- `createSingleCardEmbed` from `src/utils/embedBuilder.ts`: three fields
added first, thumbnail when the URL is truthy, and a fourth field appended
when `card.parallel` is truthy (an undeclared property, see `Card`). -/
def createSingleCardEmbed (detection : CardDetection) (processingTime : Nat)
    (imageUrl : Option String) : Embed :=
  let card := detection.card
  let confidence := detection.confidence
  let base : Embed :=
    { title := some "📸 Card Identified!"
      color := some (ConfidenceColors confidence)
      description := none
      fields :=
        [ { name := "**Card Details**", value := formatCardDetails card
            inline := false }
        , { name := "**Set Information**", value := formatSetInfo card
            inline := true }
        , { name := "**Confidence**"
            value := ConfidenceEmojis confidence ++ " " ++ confidenceLabel confidence
            inline := true } ]
      footerText := some ("Powered by CardSight AI • " ++
        toFixed2secs processingTime ++ "s")
      thumbnail := if optStrTruthy imageUrl then imageUrl else none
      hasTimestamp := true }
  if card.parallel.isSome then
    { base with fields := base.fields ++
        [ { name := "**Parallel Information**", value := formatParallelInfo card
            inline := false } ] }
  else base

/-- The field `createMultipleCardsEmbed` adds for the detection at `index`
(source: the `forEach` body). -/
def multiCardField (index : Nat) (detection : CardDetection) : EmbedField :=
  let cardName := formatCardDisplay detection.card
  let confidenceStr := ConfidenceEmojis detection.confidence ++ " " ++
    confidenceLabel detection.confidence ++ " Confidence"
  let ix := index + 1
  { name := "Card " ++ toString ix
    value := "**" ++ cardName ++ "**\n" ++ confidenceStr
    inline := false }

/-- `createMultipleCardsEmbed` from `src/utils/embedBuilder.ts`: the base
embed, then `detections.forEach((detection, index) => embed.addFields(...))`
modelled as a left fold appending one field per detection. -/
def createMultipleCardsEmbed (detections : List CardDetection)
    (processingTime : Nat) (imageUrl : Option String) : Embed :=
  let n := detections.length
  let base : Embed :=
    { title := some ("📸 " ++ toString n ++ " Cards Identified!")
      color := some ConfidenceColorsInfo
      description := some "Multiple cards detected in the image:"
      fields := []
      footerText := some ("Powered by CardSight AI • " ++
        toFixed2secs processingTime ++ "s")
      thumbnail := if optStrTruthy imageUrl then imageUrl else none
      hasTimestamp := true }
  detections.enum.foldl
    (fun e p => { e with fields := e.fields ++ [multiCardField p.1 p.2] }) base

/-- `createIdentificationEmbed` from `src/utils/embedBuilder.ts`:
dispatches on the number of detections. -/
def createIdentificationEmbed (result : CardIdentificationResult)
    (imageUrl : Option String) : Embed :=
  match result.detections with
  | [] => createNoDetectionEmbed
  | [d] => createSingleCardEmbed d result.processingTime imageUrl
  | d1 :: d2 :: rest =>
    createMultipleCardsEmbed (d1 :: d2 :: rest) result.processingTime imageUrl

/-- `createErrorEmbed` from `src/utils/embedBuilder.ts`. -/
def createErrorEmbed (errorMessage : String) (requestId : Option String) :
    Embed :=
  { title := some "❌ Error"
    color := some ConfidenceColorsError
    description := some errorMessage
    fields := []
    footerText :=
      if optStrTruthy requestId then some ("Request ID: " ++ requestId.getD "")
      else none
    thumbnail := none
    hasTimestamp := true }

/-- `createProcessingEmbed` from `src/utils/embedBuilder.ts`. -/
def createProcessingEmbed : Embed :=
  { title := some "🔍 Identifying Card..."
    color := some ConfidenceColorsInfo
    description := some "Please wait while we identify your card."
    fields := []
    footerText := some "Powered by CardSight AI"
    thumbnail := none
    hasTimestamp := true }

/-- `createInvalidFileEmbed` from `src/utils/embedBuilder.ts`. -/
def createInvalidFileEmbed : Embed :=
  { title := some "❌ Invalid File Type"
    color := some ConfidenceColorsError
    description := some ("Please upload a valid image file.\n\n" ++
      "**Supported formats:**\n" ++
      "• JPEG/JPG\n" ++
      "• PNG\n" ++
      "• WebP\n" ++
      "• GIF")
    fields := []
    footerText := some "Powered by CardSight AI"
    thumbnail := none
    hasTimestamp := true }

/-- `createFileTooLargeEmbed` from `src/utils/embedBuilder.ts`. -/
def createFileTooLargeEmbed : Embed :=
  { title := some "❌ File Too Large"
    color := some ConfidenceColorsError
    description := some ("The uploaded file is too large.\n\n" ++
      "**Maximum file size:** 8MB\n\n" ++
      "Please compress or resize your image and try again.")
    fields := []
    footerText := some "Powered by CardSight AI"
    thumbnail := none
    hasTimestamp := true }

/-- The serialized message payload of an embed: like `Embed`, but the
timestamp is the concrete instant `setTimestamp()` wrote, not a flag. -/
structure EmbedPayload where
  title : Option String
  color : Option Nat
  description : Option String
  fields : List EmbedField
  footerText : Option String
  thumbnail : Option String
  timestamp : Option Nat
deriving DecidableEq, Repr

/-- Serialization of a built embed at wall-clock instant `now`: every
constructor in `src/utils/embedBuilder.ts` calls `.setTimestamp()` with
no argument, which defaults to the current time, so the payload's
timestamp is the instant of the constructing call. -/
def embedPayloadAt (now : Nat) (e : Embed) : EmbedPayload :=
  { title := e.title
    color := e.color
    description := e.description
    fields := e.fields
    footerText := e.footerText
    thumbnail := e.thumbnail
    timestamp := if e.hasTimestamp then some now else none }

/-- The message payload `createIdentificationEmbed` produces when invoked
at wall-clock instant `now`. -/
def createIdentificationEmbedPayload (now : Nat)
    (result : CardIdentificationResult) (imageUrl : Option String) :
    EmbedPayload :=
  embedPayloadAt now (createIdentificationEmbed result imageUrl)

/-- The fields accumulated by the `forEach` fold of
`createMultipleCardsEmbed` are the base fields followed by one field per
enumerated detection, in order. -/
theorem multi_fold_fields (l : List (Nat × CardDetection)) (e : Embed) :
    (l.foldl (fun e p => { e with fields := e.fields ++ [multiCardField p.1 p.2] })
        e).fields =
      e.fields ++ l.map (fun p => multiCardField p.1 p.2) := by
  induction l generalizing e with
  | nil => simp
  | cons hd tl ih => simp [List.foldl_cons, ih]

/-- C6: `createIdentificationEmbed` dispatches on the detection count —
zero detections give the fixed no-cards embed (whatever the success
flag), one detection gives the detailed single-card embed, and two or
more give the multi-card summary whose fields list one entry per
detection in input order. -/
theorem embed_dispatch_on_detection_count (r : CardIdentificationResult)
    (u : Option String) :
    (r.detections = [] → createIdentificationEmbed r u = createNoDetectionEmbed) ∧
      (∀ d, r.detections = [d] →
        createIdentificationEmbed r u = createSingleCardEmbed d r.processingTime u) ∧
      (2 ≤ r.detections.length →
        createIdentificationEmbed r u =
            createMultipleCardsEmbed r.detections r.processingTime u ∧
          (createIdentificationEmbed r u).fields =
            r.detections.enum.map (fun p => multiCardField p.1 p.2)) := by
  refine ⟨?_, ?_, ?_⟩
  · intro h
    simp [createIdentificationEmbed, h]
  · intro d h
    simp [createIdentificationEmbed, h]
  · intro h
    match hd : r.detections with
    | [] => rw [hd] at h; simp at h
    | [d] => rw [hd] at h; simp at h
    | d1 :: d2 :: rest =>
      constructor
      · simp [createIdentificationEmbed, hd]
      · simp only [createIdentificationEmbed, hd, createMultipleCardsEmbed]
        rw [multi_fold_fields]
        simp

/-- Witness for C6 at a two-detection result: the summary's fields are one
per detection in order. -/
theorem embed_dispatch_on_detection_count_witness :
    2 ≤ (CardIdentificationResult.mk true
        [⟨.High, ⟨"a", "A", 2020, "M", "R", "S", "1", none, none, none, none⟩⟩,
         ⟨.Low, ⟨"b", "B", 2021, "M", "R", "S", "2", none, none, none, none⟩⟩]
        500 none none).detections.length ∧
      (createIdentificationEmbed (CardIdentificationResult.mk true
        [⟨.High, ⟨"a", "A", 2020, "M", "R", "S", "1", none, none, none, none⟩⟩,
         ⟨.Low, ⟨"b", "B", 2021, "M", "R", "S", "2", none, none, none, none⟩⟩]
        500 none none) none).fields =
      (CardIdentificationResult.mk true
        [⟨.High, ⟨"a", "A", 2020, "M", "R", "S", "1", none, none, none, none⟩⟩,
         ⟨.Low, ⟨"b", "B", 2021, "M", "R", "S", "2", none, none, none, none⟩⟩]
        500 none none).detections.enum.map (fun p => multiCardField p.1 p.2) :=
  ⟨by decide,
   ((embed_dispatch_on_detection_count (CardIdentificationResult.mk true
        [⟨.High, ⟨"a", "A", 2020, "M", "R", "S", "1", none, none, none, none⟩⟩,
         ⟨.Low, ⟨"b", "B", 2021, "M", "R", "S", "2", none, none, none, none⟩⟩]
        500 none none) none).2.2 (by decide)).2⟩

/-- C7, counterexample: two calls to the formatter on the same result and
URL do not yield identical message payloads when they happen at different
instants — every constructor calls `setTimestamp()`, which stamps the
current wall-clock time into the payload, so only the timestamp field
separates the two payloads. -/
theorem formatter_timestamp_counterexample :
    createIdentificationEmbedPayload 1000
        (CardIdentificationResult.mk true [] 100 none none) none ≠
      createIdentificationEmbedPayload 2000
        (CardIdentificationResult.mk true [] 100 none none) none ∧
      (createIdentificationEmbedPayload 1000
        (CardIdentificationResult.mk true [] 100 none none) none).timestamp =
        some 1000 ∧
      (createIdentificationEmbedPayload 2000
        (CardIdentificationResult.mk true [] 100 none none) none).timestamp =
        some 2000 := by
  refine ⟨fun h => ?_, rfl, rfl⟩
  have ht : (some 1000 : Option Nat) = some 2000 :=
    congrArg EmbedPayload.timestamp h
  simp at ht

/-- C7 as amended: the formatter is deterministic given the call instant —
it reads no state but the clock for the embed timestamp and mutates
nothing.  Two calls at the same instant on results agreeing in the fields
the formatter reads (`detections`, `processingTime`) yield identical
payloads, and calls at different instants agree on every payload
component except the timestamp. -/
theorem embed_formatter_deterministic_at_instant (now : Nat)
    (r1 r2 : CardIdentificationResult) (u : Option String)
    (hd : r1.detections = r2.detections)
    (hp : r1.processingTime = r2.processingTime) :
    createIdentificationEmbedPayload now r1 u =
        createIdentificationEmbedPayload now r2 u ∧
      ∀ n2,
        (createIdentificationEmbedPayload now r1 u).title =
            (createIdentificationEmbedPayload n2 r1 u).title ∧
          (createIdentificationEmbedPayload now r1 u).color =
            (createIdentificationEmbedPayload n2 r1 u).color ∧
          (createIdentificationEmbedPayload now r1 u).description =
            (createIdentificationEmbedPayload n2 r1 u).description ∧
          (createIdentificationEmbedPayload now r1 u).fields =
            (createIdentificationEmbedPayload n2 r1 u).fields ∧
          (createIdentificationEmbedPayload now r1 u).footerText =
            (createIdentificationEmbedPayload n2 r1 u).footerText ∧
          (createIdentificationEmbedPayload now r1 u).thumbnail =
            (createIdentificationEmbedPayload n2 r1 u).thumbnail := by
  have hembed : createIdentificationEmbed r1 u = createIdentificationEmbed r2 u := by
    unfold createIdentificationEmbed
    rw [hd, hp]
  constructor
  · unfold createIdentificationEmbedPayload
    rw [hembed]
  · intro n2
    exact ⟨rfl, rfl, rfl, rfl, rfl, rfl⟩

/-- Witness for the amended C7: at one instant, two results agreeing on
detections and processing time but differing in success, request id and
error produce identical payloads. -/
theorem embed_formatter_deterministic_at_instant_witness :
    (CardIdentificationResult.mk true [] 100 (some "r1") none).detections =
        (CardIdentificationResult.mk false [] 100 none (some "boom")).detections ∧
      createIdentificationEmbedPayload 5
          (CardIdentificationResult.mk true [] 100 (some "r1") none) (some "u") =
        createIdentificationEmbedPayload 5
          (CardIdentificationResult.mk false [] 100 none (some "boom")) (some "u") :=
  ⟨by decide,
   (embed_formatter_deterministic_at_instant 5
      (CardIdentificationResult.mk true [] 100 (some "r1") none)
      (CardIdentificationResult.mk false [] 100 none (some "boom"))
      (some "u") (by decide) (by decide)).1⟩

/-- A successful identification of a single card that carries parallel
information through the interface's flat fields (`isParallel`,
`parallelName`, `numberedTo`), as produced by the full adapter pipeline. -/
def parallelCardResult : CardIdentificationResult :=
  identifyCard [] "trout.jpg" (some "image/jpeg") 1234
    (.ok (some
      { success := true
        detections :=
          [ { confidence := .High
              card :=
                { id := "c1", name := "Mike Trout", year := 2023
                  manufacturer := "Topps", releaseName := "Chrome"
                  setName := "Topps Chrome", number := "27"
                  isParallel := some true, parallelName := some "Refractor"
                  numberedTo := some 99 } } ]
        requestId := some "req-1" }))

/-- C8, failing input: the single detection carries parallel information
(`isParallel = true`, `parallelName = "Refractor"`, `numberedTo = 99`),
yet the detailed embed has only the card-details, set-information and
confidence fields — no parallel block — because the builder tests the
undeclared `card.parallel` property instead of the interface's flat
fields.  The footer does show the processing time in seconds to two
decimals. -/
theorem parallel_block_never_rendered :
    parallelCardResult.detections.map (fun d => d.card.isParallel) = [some true] ∧
      parallelCardResult.detections.map (fun d => d.card.parallelName)
        = [some "Refractor"] ∧
      parallelCardResult.detections.map (fun d => d.card.numberedTo) = [some 99] ∧
      (createIdentificationEmbed parallelCardResult
          (some "https://img.example/t.jpg")).fields.map (fun f => f.name) =
        ["**Card Details**", "**Set Information**", "**Confidence**"] ∧
      (createIdentificationEmbed parallelCardResult
          (some "https://img.example/t.jpg")).footerText =
        some "Powered by CardSight AI • 1.23s" := by
  decide

/-- The character class `[a-zA-Z0-9._-]` of the sanitizer's regex. -/
def allowedChar (c : Char) : Bool :=
  c.isAlphanum || c = '.' || c = '_' || c = '-'

/-- Filename sanitization from `identifyCommand.execute`
(`src/commands/identify.ts`):
`attachment.name.replace(/[^a-zA-Z0-9._-]/g, '_').substring(0, 255)` —
every character outside the class is replaced by `'_'`, then the string
is cut to 255 characters. -/
def sanitizeFilename (name : String) : String :=
  String.mk ((name.toList.map (fun c => if allowedChar c then c else '_')).take 255)

/-- Modelled from the claim's words for comparison: sanitization by
*stripping* (removing) the characters outside `[A-Za-z0-9._-]`, then
truncating to 255. -/
def specStripFilename (name : String) : String :=
  String.mk ((name.toList.filter allowedChar).take 255)

/-- `SupportedImageFormats` from `src/types/index.ts`. -/
def SupportedImageFormats : List String :=
  ["image/jpeg", "image/jpg", "image/png", "image/webp", "image/gif"]

/-- `MAX_FILE_SIZE` from `src/types/index.ts`: 8 MiB. -/
def MAX_FILE_SIZE : Nat := 8 * 1024 * 1024

/-- The handler's content-type guard:
`!attachment.contentType || !SupportedImageFormats.includes(ct)` —
absent or empty content types are falsy, everything else must be on the
allow-list. -/
def contentTypeAllowed : Option String → Bool
  | none => false
  | some ct => strTruthy ct && SupportedImageFormats.contains ct

/-- The attachment the `/identify` interaction supplies. -/
structure Attachment where
  name : String
  size : Nat
  contentType : Option String
  url : String
deriving DecidableEq, Repr

/-- Outcome of `await fetch(attachment.url)`: an OK response with the
image bytes, a non-OK response (`!response.ok`, which the handler turns
into a thrown `Error`), or a rejected fetch. -/
inductive FetchOutcome where
  | ok (bytes : List Nat)
  | notOk (statusText : String)
  | throws
deriving DecidableEq, Repr

/-- Outcome of `await identifyCard(...)` as a call site: either it returns
(driven by the remote outcome it was given) or the awaited promise
rejects.  `identifyCard` itself never throws (see C2); the `throws` case
injects a fault to exercise the handler's catch-all. -/
inductive IdentifyStep where
  | returns (outcome : ApiOutcome)
  | throws
deriving DecidableEq, Repr

/-- Per-invocation environment of `identifyCommand.execute`: what the two
awaited sub-calls do, and the adapter's measured elapsed time. -/
structure ExecEnv where
  fetch : FetchOutcome
  identify : IdentifyStep
  elapsed : Nat
deriving DecidableEq, Repr

/-- Observable actions of one `identifyCommand.execute` invocation, in
program order:  debug log (with the filename it records), initial reply
(with its ephemeral flag), the HTTP retrieval of the attachment, the
adapter call (with the filename and MIME type it forwards), the edit of
the placeholder reply, and info/error log lines. -/
inductive Action where
  | logDebug (fileName : String)
  | reply (embed : Embed) (ephemeral : Bool)
  | fetchUrl (url : String)
  | identifyCall (fileName : String) (mimeType : Option String)
  | editReply (embed : Embed)
  | logInfo
  | logError
deriving DecidableEq, Repr

/-- Recognizer for the network-retrieval action. -/
def Action.isFetchUrl : Action → Bool
  | .fetchUrl _ => true
  | _ => false

/-- Recognizer for the adapter-call action. -/
def Action.isIdentifyCall : Action → Bool
  | .identifyCall _ _ => true
  | _ => false

/-- The generic failure embed of the handler's catch block. -/
def processFailEmbed : Embed :=
  createErrorEmbed
    "Failed to process the image. Please try again with a different image." none

/-- `identifyCommand.execute` from `src/commands/identify.ts` as the trace
of its observable actions.  Control flow mirrors the source: sanitize the
filename, log, validate content type then size (each replying ephemerally
and returning), post the processing placeholder, then under one try/catch
fetch the bytes (`!response.ok` throws), call the adapter with the
sanitized name and the declared content type, and edit the placeholder
with the formatted embed (success) or the error embed
(`result.error || 'Failed to identify card'`, with the request id);
any throw inside the try lands in the catch, which logs and edits the
placeholder with the generic failure embed. -/
def identifyCommandExecute (att : Attachment) (env : ExecEnv) : List Action :=
  let sanitizedFilename := sanitizeFilename att.name
  if !contentTypeAllowed att.contentType then
    [.logDebug sanitizedFilename, .reply createInvalidFileEmbed true]
  else if att.size > MAX_FILE_SIZE then
    [.logDebug sanitizedFilename, .reply createFileTooLargeEmbed true]
  else
    [.logDebug sanitizedFilename, .reply createProcessingEmbed false] ++
    match env.fetch with
    | .notOk _ => [.fetchUrl att.url, .logError, .editReply processFailEmbed]
    | .throws => [.fetchUrl att.url, .logError, .editReply processFailEmbed]
    | .ok bytes =>
      match env.identify with
      | .throws =>
        [.fetchUrl att.url, .identifyCall sanitizedFilename att.contentType
        , .logError, .editReply processFailEmbed]
      | .returns outcome =>
        let result :=
          identifyCard bytes sanitizedFilename att.contentType env.elapsed outcome
        let embed :=
          if result.success then createIdentificationEmbed result (some att.url)
          else
            createErrorEmbed
              (if optStrTruthy result.error then result.error.getD ""
               else "Failed to identify card")
              result.requestId
        [.fetchUrl att.url, .identifyCall sanitizedFilename att.contentType
        , .editReply embed] ++
        (if result.success && decide (0 < result.detections.length) then
          [.logInfo]
        else [])

/-- C4, counterexample: the handler replaces disallowed characters with
`'_'` rather than stripping them, so on the claim's featured input the
sanitized output differs from the strip-based one the claim describes. -/
theorem sanitize_strip_counterexample :
    sanitizeFilename "../../etc/passwd.jpg" = ".._.._etc_passwd.jpg" ∧
      specStripFilename "../../etc/passwd.jpg" = "....etcpasswd.jpg" ∧
      sanitizeFilename "../../etc/passwd.jpg" ≠
        specStripFilename "../../etc/passwd.jpg" := by
  decide

/-- C4 as amended: the handler sanitizes the filename by *replacing* every
character outside `[A-Za-z0-9._-]` with `'_'` and truncating to 255
characters; the output consists only of allowed characters (in particular
no path separators), `"../../etc/passwd.jpg"` becomes
`".._.._etc_passwd.jpg"`, and only the sanitized variant is ever logged
or forwarded to the adapter. -/
theorem sanitize_filename_amended (att : Attachment) (env : ExecEnv) :
    (∀ c ∈ (sanitizeFilename att.name).toList, allowedChar c = true) ∧
      (sanitizeFilename att.name).toList.length ≤ 255 ∧
      '/' ∉ (sanitizeFilename att.name).toList ∧
      '\\' ∉ (sanitizeFilename att.name).toList ∧
      sanitizeFilename "../../etc/passwd.jpg" = ".._.._etc_passwd.jpg" ∧
      (∀ s, Action.logDebug s ∈ identifyCommandExecute att env →
        s = sanitizeFilename att.name) ∧
      (∀ s m, Action.identifyCall s m ∈ identifyCommandExecute att env →
        s = sanitizeFilename att.name) := by
  have hall : ∀ c ∈ (sanitizeFilename att.name).toList, allowedChar c = true := by
    intro c hc
    have hc' :
        c ∈ (att.name.toList.map
          (fun c => if allowedChar c then c else '_')).take 255 := hc
    have hm := List.mem_of_mem_take hc'
    rcases List.mem_map.mp hm with ⟨a, _, ha⟩
    by_cases hA : allowedChar a
    · rw [← ha]; simp [hA]
    · rw [← ha]; simp [hA]; decide
  refine ⟨hall, ?_, ?_, ?_, by decide, ?_, ?_⟩
  · have : ((att.name.toList.map
        (fun c => if allowedChar c then c else '_')).take 255).length ≤ 255 := by
      rw [List.length_take]; exact min_le_left _ _
    exact this
  · intro h
    have := hall '/' h
    simp [allowedChar] at this
  · intro h
    have := hall '\\' h
    simp [allowedChar] at this
  · intro s hs
    by_cases h1 : contentTypeAllowed att.contentType
    · by_cases h2 : att.size > MAX_FILE_SIZE
      · simp [identifyCommandExecute, h1, h2] at hs
        exact hs
      · cases hf : env.fetch with
        | notOk st => simp [identifyCommandExecute, h1, h2, hf] at hs; exact hs
        | throws => simp [identifyCommandExecute, h1, h2, hf] at hs; exact hs
        | ok bytes =>
          cases hi : env.identify with
          | throws => simp [identifyCommandExecute, h1, h2, hf, hi] at hs; exact hs
          | returns outcome =>
            simp only [identifyCommandExecute, h1, h2, hf, hi] at hs
            simp at hs
            exact hs
    · simp [identifyCommandExecute, h1] at hs
      exact hs
  · intro s m hs
    by_cases h1 : contentTypeAllowed att.contentType
    · by_cases h2 : att.size > MAX_FILE_SIZE
      · simp [identifyCommandExecute, h1, h2] at hs
      · cases hf : env.fetch with
        | notOk st => simp [identifyCommandExecute, h1, h2, hf] at hs
        | throws => simp [identifyCommandExecute, h1, h2, hf] at hs
        | ok bytes =>
          cases hi : env.identify with
          | throws =>
            simp [identifyCommandExecute, h1, h2, hf, hi] at hs
            exact hs.1
          | returns outcome =>
            simp only [identifyCommandExecute, h1, h2, hf, hi] at hs
            simp at hs
            exact hs.1
    · simp [identifyCommandExecute, h1] at hs

/-- Witness for the amended C4 at a concrete attachment and environment. -/
theorem sanitize_filename_amended_witness :
    (∀ c ∈ (sanitizeFilename "../../etc/passwd.jpg").toList,
        allowedChar c = true) ∧
      sanitizeFilename "../../etc/passwd.jpg" = ".._.._etc_passwd.jpg" :=
  ⟨(sanitize_filename_amended
      ⟨"../../etc/passwd.jpg", 100, some "image/png", "https://u"⟩
      ⟨.throws, .throws, 0⟩).1,
   (sanitize_filename_amended
      ⟨"../../etc/passwd.jpg", 100, some "image/png", "https://u"⟩
      ⟨.throws, .throws, 0⟩).2.2.2.2.1⟩

/-- C5: an attachment with a disallowed (or missing) content type, or an
allowed type but a declared size above 8 MiB, is answered immediately
with the matching ephemeral rejection embed and nothing else: the trace
contains no network retrieval and no adapter call. -/
theorem validation_short_circuits (att : Attachment) (env : ExecEnv) :
    (contentTypeAllowed att.contentType = false →
      identifyCommandExecute att env =
          [.logDebug (sanitizeFilename att.name)
          , .reply createInvalidFileEmbed true] ∧
        ∀ a ∈ identifyCommandExecute att env,
          a.isFetchUrl = false ∧ a.isIdentifyCall = false) ∧
      (contentTypeAllowed att.contentType = true → att.size > MAX_FILE_SIZE →
        identifyCommandExecute att env =
            [.logDebug (sanitizeFilename att.name)
            , .reply createFileTooLargeEmbed true] ∧
          ∀ a ∈ identifyCommandExecute att env,
            a.isFetchUrl = false ∧ a.isIdentifyCall = false) := by
  constructor
  · intro h1
    have he : identifyCommandExecute att env =
        [.logDebug (sanitizeFilename att.name)
        , .reply createInvalidFileEmbed true] := by
      simp [identifyCommandExecute, h1]
    refine ⟨he, ?_⟩
    rw [he]
    intro a ha
    simp at ha
    rcases ha with rfl | rfl <;> exact ⟨rfl, rfl⟩
  · intro h1 h2
    have he : identifyCommandExecute att env =
        [.logDebug (sanitizeFilename att.name)
        , .reply createFileTooLargeEmbed true] := by
      simp [identifyCommandExecute, h1, h2]
    refine ⟨he, ?_⟩
    rw [he]
    intro a ha
    simp at ha
    rcases ha with rfl | rfl <;> exact ⟨rfl, rfl⟩

/-- Witness for C5: a 9 MiB PNG is rejected with the too-large embed and
the trace shows no fetch and no adapter call. -/
theorem validation_short_circuits_witness :
    contentTypeAllowed (some "image/png") = true ∧
      9 * 1024 * 1024 > MAX_FILE_SIZE ∧
      identifyCommandExecute
          ⟨"big.png", 9 * 1024 * 1024, some "image/png", "https://u"⟩
          ⟨.throws, .throws, 0⟩ =
        [.logDebug (sanitizeFilename "big.png")
        , .reply createFileTooLargeEmbed true] :=
  ⟨by decide, by decide,
   ((validation_short_circuits
      ⟨"big.png", 9 * 1024 * 1024, some "image/png", "https://u"⟩
      ⟨.throws, .throws, 0⟩).2 (by decide) (by decide)).1⟩

/-- Whether the attachment retrieval failed (non-OK response or rejected
fetch) — both paths throw inside the handler's try block. -/
def fetchFailed : FetchOutcome → Bool
  | .ok _ => false
  | .notOk _ => true
  | .throws => true

/-- Whether the adapter call site threw. -/
def identifyThrew : IdentifyStep → Bool
  | .returns _ => false
  | .throws => true

/-- C9: once validation passed and the processing placeholder was posted,
any exception during retrieval or the adapter call is caught locally and
the invocation still terminates by editing the placeholder with the
generic failed-to-process embed. -/
theorem pipeline_failures_caught (att : Attachment) (env : ExecEnv)
    (hct : contentTypeAllowed att.contentType = true)
    (hsz : att.size ≤ MAX_FILE_SIZE)
    (hfail : fetchFailed env.fetch = true ∨ identifyThrew env.identify = true) :
    (identifyCommandExecute att env).getLast? =
        some (.editReply processFailEmbed) ∧
      Action.reply createProcessingEmbed false ∈ identifyCommandExecute att env := by
  have h2 : ¬att.size > MAX_FILE_SIZE := by omega
  cases hf : env.fetch with
  | notOk st => simp [identifyCommandExecute, hct, h2, hf]
  | throws => simp [identifyCommandExecute, hct, h2, hf]
  | ok bytes =>
    cases hi : env.identify with
    | throws => simp [identifyCommandExecute, hct, h2, hf, hi]
    | returns outcome =>
      exfalso
      rw [hf, hi] at hfail
      simp [fetchFailed, identifyThrew] at hfail

/-- Witness for C9: valid JPEG attachment whose retrieval rejects; the
trace ends with the generic failure edit. -/
theorem pipeline_failures_caught_witness :
    contentTypeAllowed (some "image/jpeg") = true ∧
      (identifyCommandExecute
          ⟨"a.jpg", 10, some "image/jpeg", "https://u"⟩
          ⟨.throws, .returns .authError, 3⟩).getLast? =
        some (.editReply processFailEmbed) :=
  ⟨by decide,
   (pipeline_failures_caught
      ⟨"a.jpg", 10, some "image/jpeg", "https://u"⟩
      ⟨.throws, .returns .authError, 3⟩
      (by decide) (by decide) (Or.inl (by decide))).1⟩

/-- The interaction's reply state as the dispatcher's catch block
observes it (`interaction.deferred` / `interaction.replied`). -/
structure InteractionState where
  deferred : Bool
  replied : Bool
deriving DecidableEq, Repr

/-- Observable actions of `handleInteractionCreate`
(`src/events/interactionCreate.ts`): warn/start/success/error log lines
and the three reply channels.  The executed command's own actions are
abstracted away — only the dispatcher's behaviour is modelled. -/
inductive DispatchAction where
  | logWarn
  | logStart
  | logSuccess
  | logErr
  | reply (embed : Embed) (ephemeral : Bool)
  | followUp (embed : Embed) (ephemeral : Bool)
  | editReply (embed : Embed)
deriving DecidableEq, Repr

/-- The generic error embed the dispatcher's catch block sends. -/
def commandErrorEmbed : Embed :=
  createErrorEmbed
    ("There was an error while executing this command.\n" ++
      "Please try again later or contact support if the issue persists.")
    none

/-- The inner try of the catch block: pick the response channel matching
the current reply state — `deferred` is checked first, then `replied`,
else a fresh ephemeral reply. -/
def errorDelivery (st : InteractionState) : DispatchAction :=
  if st.deferred then .editReply commandErrorEmbed
  else if st.replied then .followUp commandErrorEmbed true
  else .reply commandErrorEmbed true

/-- `handleInteractionCreate` from `src/events/interactionCreate.ts` as
the trace of the dispatcher's own actions.  `isChatInput` is
`interaction.isChatInputCommand()`, `found` is whether the registry has
the command, `execThrows` is whether the executor's promise rejected,
`st` is the reply state at catch time, and `deliveryThrows` injects a
failure of the error-delivery call itself, which the nested catch turns
into one more error log — so the function is total and no exception ever
leaves it. -/
def handleInteractionCreate (isChatInput : Bool) (found : Bool)
    (execThrows : Bool) (st : InteractionState) (deliveryThrows : Bool) :
    List DispatchAction :=
  if !isChatInput then []
  else if !found then
    [.logWarn, .reply (createErrorEmbed "Unknown command." none) true]
  else if !execThrows then [.logStart, .logSuccess]
  else
    [.logStart, .logErr] ++
      (if deliveryThrows then [.logErr] else [errorDelivery st])

/-- C10: when a recognized command's executor throws, the dispatcher
catches it and delivers the generic error embed on the channel matching
the reply state — edit if deferred, ephemeral follow-up if already
replied, ephemeral initial reply otherwise — and even a failing delivery
only yields an extra error log: the trace is always defined, never a
propagated exception. -/
theorem dispatcher_error_delivery (st : InteractionState)
    (deliveryThrows : Bool) :
    handleInteractionCreate true true true st false =
        [.logStart, .logErr, errorDelivery st] ∧
      (st.deferred = true → errorDelivery st = .editReply commandErrorEmbed) ∧
      (st.deferred = false → st.replied = true →
        errorDelivery st = .followUp commandErrorEmbed true) ∧
      (st.deferred = false → st.replied = false →
        errorDelivery st = .reply commandErrorEmbed true) ∧
      handleInteractionCreate true true true st deliveryThrows ≠ [] := by
  refine ⟨rfl, ?_, ?_, ?_, ?_⟩
  · intro h; simp [errorDelivery, h]
  · intro h1 h2; simp [errorDelivery, h1, h2]
  · intro h1 h2; simp [errorDelivery, h1, h2]
  · cases deliveryThrows <;> simp [handleInteractionCreate]

/-- Witness for C10: with a reply already sent (not deferred), the
dispatcher's catch produces an ephemeral follow-up, not a new initial
reply. -/
theorem dispatcher_error_delivery_witness :
    handleInteractionCreate true true true ⟨false, true⟩ false =
        [.logStart, .logErr, errorDelivery ⟨false, true⟩] ∧
      errorDelivery ⟨false, true⟩ = .followUp commandErrorEmbed true :=
  ⟨(dispatcher_error_delivery ⟨false, true⟩ false).1,
   (dispatcher_error_delivery ⟨false, true⟩ false).2.2.1 rfl rfl⟩

end CardSightDemo
